import Mathlib

/-!
Verification of the borgmatic database hook modules
(`borgmatic/hooks/postgresql.py`, `borgmatic/hooks/mongodb.py`,
`borgmatic/hooks/sqlite.py`) against their natural-language specification.

The Python functions are shallowly embedded as pure Lean functions.
Side effects (launching processes, creating pipes and directories,
removing files, logging warnings) are recorded as an explicit trace of
`Event`s; the filesystem is a parameter `fs : String → Bool` giving, for
each path, whether it exists; captured command output is a parameter
`oracle : List String → String` mapping a command line to its standard
output.  Python exceptions are modelled by `PyError`; a function that can
raise returns the trace accumulated before the raise together with
`Option PyError` (or `Except PyError …` for its value).

Python dictionary fields are modelled as `Option` fields of a structure
(`none` = key absent).  The `schemas` field is `Option (Option (List
String))` so that an absent key (`none`), a present-but-`None` value
(`some none`) and a present list (`some (some l)`) are distinguished,
because `mongodb.build_restore_command` indexes `database['schemas']`
directly while `postgresql.restore_database_dump` uses `.get`.
-/

namespace Borgmatic

/-- Python truthiness of an optional string: `None` and `''` are falsy. -/
def truthy : Option String → Bool
  | none => false
  | some s => s ≠ ""

/-- Python `a or b` where `a` is an optional string and `b` a string:
returns `a`'s value when truthy, else `b`. -/
def pyOrStr (a : Option String) (b : String) : String :=
  match a with
  | some s => if s = "" then b else s
  | none => b

/-- Python `a or b` where both sides are optional strings. -/
def pyOrOpt (a b : Option String) : Option String :=
  match a with
  | some s => if s = "" then b else some s
  | none => b

/-- Python `d.get(k, default)`: the field's value when the key is
present (even if falsy), else the default. -/
def dictGet (field : Option String) (default : String) : String :=
  match field with
  | some v => v
  | none => default

/-- Python `d.get(k1, d.get(k2))`: nested get with an optional result. -/
def dictGetOpt (field fallback : Option String) : Option String :=
  match field with
  | some v => some v
  | none => fallback

/-- Split a character list at every occurrence of `c`, keeping empty
parts (the recursion carries the current part reversed). -/
def splitOnCharAux (c : Char) : List Char → List Char → List String
  | [], acc => [String.mk acc.reverse]
  | x :: xs, acc =>
    if x = c then String.mk acc.reverse :: splitOnCharAux c xs []
    else splitOnCharAux c xs (x :: acc)

/-- Split a string at every occurrence of `c`, keeping empty parts. -/
def splitOnChar (c : Char) (s : String) : List String :=
  splitOnCharAux c s.data []

/-- Python `s.split(' ')` (keeps empty fields). -/
def splitOnSpace (s : String) : List String :=
  splitOnChar ' ' s

/-- `shlex.split` on a plain (unquoted) command string: whitespace
split, dropping empty tokens. -/
def shlexSplit (s : String) : List String :=
  (splitOnChar ' ' s).filter (· ≠ "")

/-- Python `str.splitlines` restricted to `\n` separators: splits on
newlines, without a trailing empty line for input ending in `\n` (and
with no lines at all for the empty string). -/
def splitLines (s : String) : List String :=
  let parts := splitOnChar '\n' s
  if parts.getLast? = some "" then parts.dropLast else parts

/-- A Python exception, as far as this code can raise one. -/
inductive PyError where
  | valueError (msg : String)
  | keyError (key : String)
  | attributeError (msg : String)
  deriving Repr, DecidableEq

/-- A command line: the list of tokens handed to the process launcher. -/
abbrev Cmd := List String

/-- One observable side effect of the hook functions.  `executeCommand`
records a `borgmatic.execute.execute_command` call (with its
`run_to_completion` flag), `executeCaptureOutput` an
`execute_command_and_capture_output` call, and `executeWithProcesses` an
`execute_command_with_processes` call (with the number of dependency
processes and whether an input stream was wired in). -/
inductive Event where
  | logWarning (msg : String)
  | executeCommand (command : Cmd) (runToCompletion : Bool)
  | executeCaptureOutput (command : Cmd)
  | executeWithProcesses (command : Cmd) (dependencies : Nat) (hasInput : Bool)
  | createNamedPipe (path : String)
  | createParentDirectory (path : String)
  | removeFile (path : String)
  deriving Repr, DecidableEq

/-- Whether an event is an invocation of the process launcher
(`execute_command`, `execute_command_and_capture_output`,
`execute_command_with_processes`). -/
def Event.isLauncher : Event → Bool
  | .executeCommand _ _ => true
  | .executeCaptureOutput _ => true
  | .executeWithProcesses _ _ _ => true
  | _ => false

/-- Whether an event creates or overwrites a filesystem artifact. -/
def Event.isArtifactCreation : Event → Bool
  | .createNamedPipe _ => true
  | .createParentDirectory _ => true
  | _ => false

/-- Whether an event is a plain `execute_command` launch (the call used
to run a dump command, as opposed to the listing query's
`execute_command_and_capture_output`). -/
def Event.isExecuteCommand : Event → Bool
  | .executeCommand _ _ => true
  | _ => false

/-- Whether an event creates a named pipe. -/
def Event.isNamedPipeCreation : Event → Bool
  | .createNamedPipe _ => true
  | _ => false

/-- The global configuration dict, as far as the hooks read it. -/
structure Config where
  borgmatic_source_directory : Option String := none
  deriving Repr, DecidableEq

/-- Modelled from the spec: `borgmatic.hooks.dump.make_database_dump_path`
(module `borgmatic/hooks/dump.py`, not part of the shown sources) joins
the borgmatic source directory (defaulting when unset) with the
engine-specific subdirectory name. -/
def makeDatabaseDumpPath (sourceDirectory : Option String)
    (subdirectory : String) : String :=
  (sourceDirectory.getD "~/.borgmatic") ++ "/" ++ subdirectory

/-- Modelled from the spec: `borgmatic.hooks.dump.make_database_dump_filename`
(module `borgmatic/hooks/dump.py`, not part of the shown sources) derives
the dump artifact path `<dump path>/<hostname-or-omitted>/<database name>`
from the dump path, the database name and the optional hostname; per the
spec this mapping is pure and deterministic. -/
def makeDatabaseDumpFilename (dumpPath : String) (name : String)
    (hostname : Option String) : String :=
  match hostname with
  | some h => dumpPath ++ "/" ++ h ++ "/" ++ name
  | none => dumpPath ++ "/" ++ name

/-- Restore-time connection parameter overrides
(`connection_params` dict; every key is supplied by the caller, possibly
with a `None` value, modelled as `none`). -/
structure ConnectionParams where
  hostname : Option String := none
  port : Option String := none
  username : Option String := none
  password : Option String := none
  restore_path : Option String := none
  deriving Repr, DecidableEq

/-- Python `(('--flag', d[k]) if k in d else ())`: a flag/value pair
guarded by key presence. -/
def optPair (flag : String) (value : Option String) : Cmd :=
  match value with
  | some v => [flag, v]
  | none => []

/-- Python `tuple(d[k].split(' ')) if k in d else ()`: free-form options
split on single spaces, guarded by key presence. -/
def optSplit (value : Option String) : Cmd :=
  match value with
  | some o => splitOnSpace o
  | none => []

/-- Python `(('--flag', v) if v else ())` for a plain string `v`: a
flag/value pair guarded by truthiness. -/
def strFlag (flag : String) (value : String) : Cmd :=
  if value = "" then [] else [flag, value]

/-- `['--flag', value]` when the optional value is truthy, else nothing
(Python `(('--flag', v) if v else ())` / `if v: command.extend(...)`). -/
def flagIfTruthy (flag : String) (value : Option String) : Cmd :=
  match value with
  | some v => if v = "" then [] else [flag, v]
  | none => []

/-! ## CSV parsing (`csv.reader` with delimiter `,` and quotechar `"`)

`postgresql.database_names_to_dump` feeds the captured `psql --list
--csv` output line by line through `csv.reader` and takes `row[0]` of
every row.  We model the per-line field splitting with the standard
quote-aware state machine; an empty line yields an empty row (so that
`row[0]` raises `IndexError` exactly as in Python — that case is
modelled as a `valueError`-free `none` first field). -/

/-- State of the per-line CSV field scanner. -/
inductive CsvState where
  | fieldStart
  | inField
  | inQuoted
  | quoteInQuoted
  deriving Repr, DecidableEq

/-- One step of the CSV field scanner: given the state, the accumulated
fields (reversed), the current field (reversed characters) and the next
character, produce the new state and accumulators. -/
def csvStep : CsvState × List String × List Char → Char →
    CsvState × List String × List Char
  | (.fieldStart, fields, _), c =>
    if c = '"' then (.inQuoted, fields, [])
    else if c = ',' then (.fieldStart, "" :: fields, [])
    else (.inField, fields, [c])
  | (.inField, fields, cur), c =>
    if c = ',' then (.fieldStart, String.mk cur.reverse :: fields, [])
    else (.inField, fields, c :: cur)
  | (.inQuoted, fields, cur), c =>
    if c = '"' then (.quoteInQuoted, fields, cur)
    else (.inQuoted, fields, c :: cur)
  | (.quoteInQuoted, fields, cur), c =>
    if c = '"' then (.inQuoted, fields, '"' :: cur)
    else if c = ',' then (.fieldStart, String.mk cur.reverse :: fields, [])
    else (.inField, fields, c :: cur)

/-- Split one CSV line into its fields (empty line: no fields, matching
`csv.reader`'s empty row for a blank line). -/
def csvRow (line : String) : List String :=
  if line = "" then []
  else
    let (_, fields, cur) := line.data.foldl csvStep (.fieldStart, [], [])
    (String.mk cur.reverse :: fields).reverse

/-- `('template0', 'template1')` — `EXCLUDED_DATABASE_NAMES` in
`postgresql.py`. -/
def EXCLUDED_DATABASE_NAMES : List String := ["template0", "template1"]

/-- The final comprehension of `postgresql.database_names_to_dump`:
`tuple(row[0] for row in csv.reader(list_output.splitlines(), ...) if
row[0] not in EXCLUDED_DATABASE_NAMES)`.  A row with no fields (blank
line) makes `row[0]` raise `IndexError`, modelled as an error. -/
def csvFirstField (row : List String) : Except PyError String :=
  match row.head? with
  | some f => Except.ok f
  | none => Except.error (.valueError "IndexError: list index out of range")

/-- Take every row's first field, stopping at the first failing row. -/
def collectFirstFields : List (List String) → Except PyError (List String)
  | [] => .ok []
  | row :: rest =>
    match csvFirstField row with
    | .error e => .error e
    | .ok f =>
      match collectFirstFields rest with
      | .error e => .error e
      | .ok fs => .ok (f :: fs)

/-- Parse the whole `--list` output: split into lines, parse each line
as a CSV row, take every row's first field and drop the excluded
built-in names. -/
def namesFromListOutput (listOutput : String) : Except PyError (List String) :=
  match collectFirstFields ((splitLines listOutput).map csvRow) with
  | .error e => .error e
  | .ok firsts => .ok (firsts.filter (fun f => f ∉ EXCLUDED_DATABASE_NAMES))

/-! ## PostgreSQL hook (`borgmatic/hooks/postgresql.py`) -/

/-- A PostgreSQL database configuration dict, as far as the hook reads
it (`none` = key absent). -/
structure PgDatabase where
  name : String
  hostname : Option String := none
  port : Option String := none
  username : Option String := none
  password : Option String := none
  format : Option String := none
  options : Option String := none
  no_owner : Bool := false
  pg_dump_command : Option String := none
  pg_restore_command : Option String := none
  psql_command : Option String := none
  list_options : Option String := none
  analyze_options : Option String := none
  restore_hostname : Option String := none
  restore_port : Option String := none
  restore_username : Option String := none
  restore_password : Option String := none
  restore_options : Option String := none
  schemas : Option (Option (List String)) := none
  ssl_mode : Option String := none
  ssl_cert : Option String := none
  ssl_key : Option String := none
  ssl_root_cert : Option String := none
  ssl_crl : Option String := none
  deriving Repr, DecidableEq

/-- `postgresql.make_dump_path`. -/
def pgMakeDumpPath (config : Config) : String :=
  makeDatabaseDumpPath config.borgmatic_source_directory "postgresql_databases"

/-- The `PGPASSWORD` entry of `postgresql.make_extra_environment`:
for a restore, `restore_connection_params.get('password') or
database.get('restore_password', database['password'])`; otherwise
`database['password']`.  A `KeyError` (password absent everywhere) is
swallowed, leaving the entry unset (`none`). -/
def pgPasswordEnv (database : PgDatabase)
    (restoreConnectionParams : Option ConnectionParams) : Option String :=
  match restoreConnectionParams with
  | some params =>
    match params.password with
    | some p =>
      if p = "" then dictGetOpt database.restore_password database.password
      else some p
    | none => dictGetOpt database.restore_password database.password
  | none => database.password

/-- The `psql` command token list:
`shlex.split(database.get('psql_command') or 'psql')`. -/
def pgPsqlCommand (database : PgDatabase) : List String :=
  shlexSplit (pyOrStr database.psql_command "psql")

/-- The `--list` query command of `postgresql.database_names_to_dump`
(built only when name is `"all"`, a format is set and this is not a dry
run). -/
def pgListCommand (database : PgDatabase) : Cmd :=
  pgPsqlCommand database
    ++ ["--list", "--no-password", "--no-psqlrc", "--csv", "--tuples-only"]
    ++ optPair "--host" database.hostname
    ++ optPair "--port" database.port
    ++ optPair "--username" database.username
    ++ optSplit database.list_options

/-- `postgresql.database_names_to_dump`: the sequence of database names
to dump for one configuration entry, together with the trace of launcher
invocations it makes (`execute_command_and_capture_output` for the
`"all"`-with-format server query).  The captured output of a command is
supplied by `oracle`. -/
def databaseNamesToDump (database : PgDatabase)
    (oracle : Cmd → String) (dryRun : Bool) :
    List Event × Except PyError (List String) :=
  let requestedName := database.name
  if requestedName ≠ "all" then ([], .ok [requestedName])
  else if ¬ truthy database.format then ([], .ok ["all"])
  else if dryRun then ([], .ok [])
  else
    let listCommand := pgListCommand database
    let listOutput := oracle listCommand
    ([.executeCaptureOutput listCommand], namesFromListOutput listOutput)

/-- The dump format for one resolved database name:
`database.get('format', None if database_name == 'all' else 'custom')`. -/
def pgDumpFormat (database : PgDatabase) (databaseName : String) : Option String :=
  dictGetOpt database.format
    (if databaseName = "all" then none else some "custom")

/-- The dump command of `postgresql.dump_databases` for one resolved
database name (lines 126–157 of `postgresql.py`). -/
def pgDumpCommand (database : PgDatabase) (databaseName : String)
    (dumpFilename : String) : Cmd :=
  let dumpFormat := pgDumpFormat database databaseName
  let defaultDumpCommand :=
    if databaseName = "all" then "pg_dumpall" else "pg_dump"
  let dumpCommand := pyOrStr database.pg_dump_command defaultDumpCommand
  [dumpCommand, "--no-password", "--clean", "--if-exists"]
    ++ optPair "--host" database.hostname
    ++ optPair "--port" database.port
    ++ optPair "--username" database.username
    ++ (if database.no_owner then ["--no-owner"] else [])
    ++ flagIfTruthy "--format" dumpFormat
    ++ (if dumpFormat = some "directory" then ["--file", dumpFilename] else [])
    ++ optSplit database.options
    ++ (if databaseName = "all" then [] else [databaseName])
    ++ (if dumpFormat ≠ some "directory" then [">", dumpFilename] else [])

/-- The body of the inner loop of `postgresql.dump_databases` for one
resolved database name: skip (with a warning) when the dump filename
already exists, do nothing further on a dry run, otherwise create the
parent directory and run to completion (directory format) or create a
named pipe and launch without waiting, collecting the handle (all other
formats). -/
def pgDumpOne (database : PgDatabase) (fs : String → Bool)
    (logPrefix : String) (dryRun : Bool) (dumpPath : String)
    (databaseName : String) : List Event × List Cmd :=
  let dumpFormat := pgDumpFormat database databaseName
  let dumpFilename :=
    makeDatabaseDumpFilename dumpPath databaseName database.hostname
  let command := pgDumpCommand database databaseName dumpFilename
  if fs dumpFilename then
    ([.logWarning (logPrefix ++ ": Skipping duplicate dump of PostgreSQL database \""
        ++ databaseName ++ "\" to " ++ dumpFilename)], [])
  else if dryRun then ([], [])
  else if dumpFormat = some "directory" then
    ([.createParentDirectory dumpFilename, .executeCommand command true], [])
  else
    ([.createNamedPipe dumpFilename, .executeCommand command false], [command])

/-- The body of the outer loop of `postgresql.dump_databases` for one
database configuration entry: resolve the names to dump, raise
`ValueError` when none can be found outside a dry run, and process each
resolved name. -/
def pgDumpDatabase (database : PgDatabase) (config : Config)
    (fs : String → Bool) (oracle : Cmd → String) (logPrefix : String)
    (dryRun : Bool) : List Event × Except PyError (List Cmd) :=
  let dumpPath := pgMakeDumpPath config
  let resolution := databaseNamesToDump database oracle dryRun
  match resolution.2 with
  | .error e => (resolution.1, .error e)
  | .ok names =>
    if names.isEmpty then
      if dryRun then (resolution.1, .ok [])
      else (resolution.1,
        .error (.valueError "Cannot find any PostgreSQL databases to dump."))
    else
      let results := names.map (pgDumpOne database fs logPrefix dryRun dumpPath)
      (resolution.1 ++ (results.map Prod.fst).flatten,
        .ok (results.map Prod.snd).flatten)

/-- `postgresql.dump_databases`: the trace of side effects and the
returned sequence of (non-blocking) dump process handles, a handle being
identified with its command line.  An exception aborts the remaining
databases. -/
def pgDumpDatabases (databases : List PgDatabase) (config : Config)
    (fs : String → Bool) (oracle : Cmd → String) (logPrefix : String)
    (dryRun : Bool) : List Event × Except PyError (List Cmd) :=
  match databases with
  | [] => ([], .ok [])
  | database :: rest =>
    let r := pgDumpDatabase database config fs oracle logPrefix dryRun
    match r.2 with
    | .error e => (r.1, .error e)
    | .ok handles =>
      let rr := pgDumpDatabases rest config fs oracle logPrefix dryRun
      (r.1 ++ rr.1,
        match rr.2 with
        | .error e => .error e
        | .ok restHandles => .ok (handles ++ restHandles))

/-! ## MongoDB hook (`borgmatic/hooks/mongodb.py`) -/

/-- A MongoDB database configuration dict, as far as the hook reads it. -/
structure MongoDatabase where
  name : String
  hostname : Option String := none
  port : Option String := none
  username : Option String := none
  password : Option String := none
  authentication_database : Option String := none
  format : Option String := none
  options : Option String := none
  restore_hostname : Option String := none
  restore_port : Option String := none
  restore_username : Option String := none
  restore_password : Option String := none
  restore_options : Option String := none
  schemas : Option (Option (List String)) := none
  deriving Repr, DecidableEq

/-- `mongodb.make_dump_path`. -/
def mongoMakeDumpPath (config : Config) : String :=
  makeDatabaseDumpPath config.borgmatic_source_directory "mongodb_databases"

/-- `mongodb.build_dump_command`. -/
def mongoBuildDumpCommand (database : MongoDatabase) (dumpFilename : String)
    (dumpFormat : String) : Cmd :=
  let allDatabases := database.name = "all"
  ["mongodump"]
    ++ (if dumpFormat = "directory" then ["--out", dumpFilename] else [])
    ++ optPair "--host" database.hostname
    ++ optPair "--port" database.port
    ++ optPair "--username" database.username
    ++ optPair "--password" database.password
    ++ optPair "--authenticationDatabase" database.authentication_database
    ++ (if ¬ allDatabases then ["--db", database.name] else [])
    ++ optSplit database.options
    ++ (if dumpFormat ≠ "directory" then ["--archive", ">", dumpFilename] else [])

/-- `mongodb.dump_databases`.  Unlike the PostgreSQL and SQLite hooks,
this function performs no existence check on the dump filename (there is
no `os.path.exists` call in `mongodb.py`), so the filesystem parameter
is unused; it is kept so that behaviour on a filesystem where the
artifact already exists can be stated. -/
def mongoDumpOne (database : MongoDatabase) (config : Config)
    (dryRun : Bool) : List Event × List Cmd :=
  let dumpFilename := makeDatabaseDumpFilename (mongoMakeDumpPath config)
    database.name database.hostname
  let dumpFormat := dictGet database.format "archive"
  if dryRun then ([], [])
  else
    let command := mongoBuildDumpCommand database dumpFilename dumpFormat
    if dumpFormat = "directory" then
      ([.createParentDirectory dumpFilename, .executeCommand command true], [])
    else
      ([.createNamedPipe dumpFilename, .executeCommand command false], [command])

def mongoDumpDatabases (databases : List MongoDatabase) (config : Config)
    (_fs : String → Bool) (dryRun : Bool) : List Event × List Cmd :=
  match databases with
  | [] => ([], [])
  | database :: rest =>
    let r := mongoDumpOne database config dryRun
    let rr := mongoDumpDatabases rest config _fs dryRun
    (r.1 ++ rr.1, r.2 ++ rr.2)

/-! ## SQLite hook (`borgmatic/hooks/sqlite.py`) -/

/-- A SQLite database configuration dict, as far as the hook reads it. -/
structure SqliteDatabase where
  name : String
  path : String
  restore_path : Option String := none
  deriving Repr, DecidableEq

/-- `sqlite.make_dump_path`. -/
def sqliteMakeDumpPath (config : Config) : String :=
  makeDatabaseDumpPath config.borgmatic_source_directory "sqlite_databases"

/-- `sqlite.dump_databases`: warns (without failing) for the meaningless
name `"all"` and for a missing source database file, skips a dump whose
filename already exists, and otherwise creates the parent directory and
launches `sqlite3 <path> .dump > <dump_filename>` without waiting,
collecting the handle.  No named pipe is created by this hook. -/
def sqliteDumpOne (database : SqliteDatabase) (config : Config)
    (fs : String → Bool) (logPrefix : String) (dryRun : Bool) :
    List Event × List Cmd :=
  let databasePath := database.path
  let warnings :=
    (if database.name = "all" then
      [Event.logWarning "The \"all\" database name has no meaning for SQLite3 databases"]
     else [])
    ++ (if ¬ fs databasePath then
      [Event.logWarning (logPrefix ++ ": No SQLite database at " ++ databasePath
        ++ "; An empty database will be created and dumped")]
     else [])
  let dumpFilename :=
    makeDatabaseDumpFilename (sqliteMakeDumpPath config) database.name none
  if fs dumpFilename then
    (warnings ++ [.logWarning (logPrefix
      ++ ": Skipping duplicate dump of SQLite database at "
      ++ databasePath ++ " to " ++ dumpFilename)], [])
  else
    let command := ["sqlite3", databasePath, ".dump", ">", dumpFilename]
    if dryRun then (warnings, [])
    else
      (warnings ++ [.createParentDirectory dumpFilename,
        .executeCommand command false], [command])

def sqliteDumpDatabases (databases : List SqliteDatabase) (config : Config)
    (fs : String → Bool) (logPrefix : String) (dryRun : Bool) :
    List Event × List Cmd :=
  match databases with
  | [] => ([], [])
  | database :: rest =>
    let r := sqliteDumpOne database config fs logPrefix dryRun
    let rr := sqliteDumpDatabases rest config fs logPrefix dryRun
    (r.1 ++ rr.1, r.2 ++ rr.2)

/-! ## Restore paths

An extract process is either active (`hasExtract = true`, the restore
reads the Borg extraction's output stream) or absent (`hasExtract =
false`, i.e. Python `extract_process = None`, the restore reads the
on-disk dump artifact). -/

/-- The resolved restore hostname shared by the PostgreSQL and MongoDB
restore builders: `connection_params['hostname'] or
database.get('restore_hostname', database.get('hostname'))`. -/
def restoreHostname (cpHostname restoreField dumpField : Option String) :
    Option String :=
  pyOrOpt cpHostname (dictGetOpt restoreField dumpField)

/-- The resolved restore port: `str(connection_params['port'] or
database.get('restore_port', database.get('port', '')))`. -/
def restorePort (cpPort restoreField dumpField : Option String) : String :=
  pyOrStr cpPort (dictGet restoreField (dictGet dumpField ""))

/-- The schemas list a PostgreSQL restore iterates over:
`database['schemas']` guarded by the truthy `database.get('schemas')`. -/
def pgSchemaList (database : PgDatabase) : List String :=
  match database.schemas with
  | some (some l) => l
  | _ => []

/-- The main restore command of `postgresql.restore_database_dump`
(lines 257–275 of `postgresql.py`). -/
def pgRestoreCommand (database : PgDatabase) (connectionParams : ConnectionParams)
    (hasExtract : Bool) (dumpFilename : String) : Cmd :=
  let hostname := restoreHostname connectionParams.hostname
    database.restore_hostname database.hostname
  let port := restorePort connectionParams.port
    database.restore_port database.port
  let username := pyOrOpt connectionParams.username
    (dictGetOpt database.restore_username database.username)
  let allDatabases := database.name = "all"
  let usePsqlCommand := allDatabases || database.format = some "plain"
  let pgRestoreCmd := shlexSplit (pyOrStr database.pg_restore_command "pg_restore")
  (if usePsqlCommand then pgPsqlCommand database else pgRestoreCmd)
    ++ ["--no-password"]
    ++ (if usePsqlCommand then ["--no-psqlrc"]
        else ["--if-exists", "--exit-on-error", "--clean"])
    ++ (if ¬ allDatabases then ["--dbname", database.name] else [])
    ++ flagIfTruthy "--host" hostname
    ++ strFlag "--port" port
    ++ flagIfTruthy "--username" username
    ++ (if database.no_owner then ["--no-owner"] else [])
    ++ optSplit database.restore_options
    ++ (if hasExtract then [] else [dumpFilename])
    ++ (if (pgSchemaList database).isEmpty then []
        else ((pgSchemaList database).map (fun s => ["--schema", s])).flatten)

/-- The post-restore `ANALYZE` command of
`postgresql.restore_database_dump` (lines 247–256 of `postgresql.py`). -/
def pgAnalyzeCommand (database : PgDatabase)
    (connectionParams : ConnectionParams) : Cmd :=
  let hostname := restoreHostname connectionParams.hostname
    database.restore_hostname database.hostname
  let port := restorePort connectionParams.port
    database.restore_port database.port
  let username := pyOrOpt connectionParams.username
    (dictGetOpt database.restore_username database.username)
  let allDatabases := database.name = "all"
  pgPsqlCommand database
    ++ ["--no-password", "--no-psqlrc", "--quiet"]
    ++ flagIfTruthy "--host" hostname
    ++ strFlag "--port" port
    ++ flagIfTruthy "--username" username
    ++ (if ¬ allDatabases then ["--dbname", database.name] else [])
    ++ optSplit database.analyze_options
    ++ ["--command", "ANALYZE"]

/-- `postgresql.restore_database_dump`: find the configuration entry for
the requested name (raising `ValueError` when absent), then — outside a
dry run — run the restore command (with the extract process wired in as
input and dependency when active) followed by the `ANALYZE` command. -/
def pgRestoreDatabaseDump (databasesConfig : List PgDatabase) (config : Config)
    (databaseName : String) (dryRun : Bool) (hasExtract : Bool)
    (connectionParams : ConnectionParams) : List Event × Option PyError :=
  match databasesConfig.find? (fun d => d.name = databaseName) with
  | none =>
    ([], some (.valueError ("A database named \"" ++ databaseName
      ++ "\" could not be found in the configuration")))
  | some database =>
    let dumpFilename := makeDatabaseDumpFilename (pgMakeDumpPath config)
      database.name database.hostname
    let restoreCommand :=
      pgRestoreCommand database connectionParams hasExtract dumpFilename
    let analyzeCommand := pgAnalyzeCommand database connectionParams
    if dryRun then ([], none)
    else
      ([.executeWithProcesses restoreCommand (if hasExtract then 1 else 0) hasExtract,
        .executeCommand analyzeCommand true], none)

/-- The `command` list of `mongodb.build_restore_command` as built
before the final `database['schemas']` lookup. -/
def mongoRestoreCommandBase (hasExtract : Bool) (database : MongoDatabase)
    (dumpFilename : String) (connectionParams : ConnectionParams) : Cmd :=
  let hostname := restoreHostname connectionParams.hostname
    database.restore_hostname database.hostname
  let port := restorePort connectionParams.port
    database.restore_port database.port
  let username := pyOrOpt connectionParams.username
    (dictGetOpt database.restore_username database.username)
  let password := pyOrOpt connectionParams.password
    (dictGetOpt database.restore_password database.password)
  ["mongorestore"]
    ++ (if hasExtract then ["--archive"] else ["--dir", dumpFilename])
    ++ (if database.name ≠ "all" then ["--drop", "--db", database.name] else [])
    ++ flagIfTruthy "--host" hostname
    ++ strFlag "--port" port
    ++ flagIfTruthy "--username" username
    ++ flagIfTruthy "--password" password
    ++ optPair "--authenticationDatabase" database.authentication_database
    ++ optSplit database.restore_options

/-- `mongodb.build_restore_command`: raises `KeyError` when the
configuration has no `schemas` key (`database['schemas']` is indexed
directly); a present `None` or empty list merely yields no
`--nsInclude` flags. -/
def mongoBuildRestoreCommand (hasExtract : Bool) (database : MongoDatabase)
    (dumpFilename : String) (connectionParams : ConnectionParams) :
    Except PyError Cmd :=
  match database.schemas with
  | none => .error (.keyError "schemas")
  | some schemas =>
    .ok (mongoRestoreCommandBase hasExtract database dumpFilename connectionParams
      ++ (match schemas with
        | some l => (l.map (fun s => ["--nsInclude", s])).flatten
        | none => []))

/-- `mongodb.restore_database_dump`.  The restore command is built
before the dry-run check, so a missing `schemas` key raises even on a
dry run. -/
def mongoRestoreDatabaseDump (databasesConfig : List MongoDatabase)
    (config : Config) (databaseName : String) (dryRun : Bool)
    (hasExtract : Bool) (connectionParams : ConnectionParams) :
    List Event × Option PyError :=
  match databasesConfig.find? (fun d => d.name = databaseName) with
  | none =>
    ([], some (.valueError ("A database named \"" ++ databaseName
      ++ "\" could not be found in the configuration")))
  | some database =>
    let dumpFilename := makeDatabaseDumpFilename (mongoMakeDumpPath config)
      database.name database.hostname
    match mongoBuildRestoreCommand hasExtract database dumpFilename
        connectionParams with
    | .error e => ([], some e)
    | .ok restoreCommand =>
      if dryRun then ([], none)
      else
        ([.executeWithProcesses restoreCommand (if hasExtract then 1 else 0)
            hasExtract], none)

/-- `sqlite.restore_database_dump`: find the entry (raising `ValueError`
when absent); outside a dry run remove any existing database file (a
missing file is ignored), then run `sqlite3 <path>` reading
`extract_process.stdout` with `[extract_process]` as dependencies —
unconditionally, so `extract_process = None` raises `AttributeError`
while evaluating `extract_process.stdout`, before any launch. -/
def sqliteRestoreDatabaseDump (databasesConfig : List SqliteDatabase)
    (fs : String → Bool) (logPrefix : String) (databaseName : String)
    (dryRun : Bool) (hasExtract : Bool)
    (connectionParams : ConnectionParams) : List Event × Option PyError :=
  match databasesConfig.find? (fun d => d.name = databaseName) with
  | none =>
    ([], some (.valueError ("A database named \"" ++ databaseName
      ++ "\" could not be found in the configuration")))
  | some database =>
    let databasePath := pyOrStr connectionParams.restore_path
      (dictGet database.restore_path database.path)
    if dryRun then ([], none)
    else
      let removeEvents :=
        if fs databasePath then
          [Event.removeFile databasePath,
           Event.logWarning (logPrefix ++ ": Removed existing SQLite database at "
             ++ databasePath)]
        else []
      let restoreCommand := ["sqlite3", databasePath]
      if hasExtract then
        (removeEvents ++ [.executeWithProcesses restoreCommand 1 true], none)
      else
        (removeEvents,
          some (.attributeError "NoneType object has no attribute stdout"))

/-! ## Token-cleanliness side conditions

The command-shape theorems characterise a command by which tokens occur
in it.  Free-form configuration values (an overridden binary name, a
hostname, option strings, …) are arbitrary strings, so a degenerate
configuration could smuggle a reserved token such as `"--file"` into the
command through an unrelated field.  The following boolean predicates
rule those degenerate configurations out; every ordinary configuration
satisfies them. -/

/-- The optional value, when present, is none of the reserved tokens. -/
def noneOrAvoids (special : List String) : Option String → Bool
  | none => true
  | some v => decide (v ∉ special)

/-- The optional free-form option string, when present, splits into
tokens none of which is reserved. -/
def splitAvoids (special : List String) : Option String → Bool
  | none => true
  | some o => (splitOnSpace o).all (fun t => decide (t ∉ special))

/-- No configured value of a PostgreSQL dump command collides with the
reserved tokens `--file` and `>` (nor with `all` when dumping `"all"`,
so that the absence of the name token is observable). -/
def pgDumpCommandClean (database : PgDatabase) (databaseName : String)
    (dumpFilename : String) : Bool :=
  let special := ["--file", ">"] ++ (if databaseName = "all" then ["all"] else [])
  decide (databaseName ∉ ["--file", ">"]) &&
  decide (dumpFilename ∉ special) &&
  decide (pyOrStr database.pg_dump_command
    (if databaseName = "all" then "pg_dumpall" else "pg_dump") ∉ special) &&
  noneOrAvoids special database.hostname &&
  noneOrAvoids special database.port &&
  noneOrAvoids special database.username &&
  noneOrAvoids special (pgDumpFormat database databaseName) &&
  splitAvoids special database.options

/-- No configured value of a MongoDB restore command collides with the
reserved token `--nsInclude`. -/
def mongoRestoreClean (database : MongoDatabase)
    (connectionParams : ConnectionParams) (dumpFilename : String) : Bool :=
  let special := ["--nsInclude"]
  decide (database.name ∉ special) &&
  decide (dumpFilename ∉ special) &&
  noneOrAvoids special (restoreHostname connectionParams.hostname
    database.restore_hostname database.hostname) &&
  decide (restorePort connectionParams.port
    database.restore_port database.port ∉ special) &&
  noneOrAvoids special (pyOrOpt connectionParams.username
    (dictGetOpt database.restore_username database.username)) &&
  noneOrAvoids special (pyOrOpt connectionParams.password
    (dictGetOpt database.restore_password database.password)) &&
  noneOrAvoids special database.authentication_database &&
  splitAvoids special database.restore_options

/-- No configured value of a PostgreSQL restore command collides with
the reserved token `--schema`. -/
def pgRestoreClean (database : PgDatabase)
    (connectionParams : ConnectionParams) (dumpFilename : String) : Bool :=
  let special := ["--schema"]
  decide (database.name ∉ special) &&
  decide (dumpFilename ∉ special) &&
  (pgPsqlCommand database).all (fun t => decide (t ∉ special)) &&
  (shlexSplit (pyOrStr database.pg_restore_command "pg_restore")).all
    (fun t => decide (t ∉ special)) &&
  noneOrAvoids special (restoreHostname connectionParams.hostname
    database.restore_hostname database.hostname) &&
  decide (restorePort connectionParams.port
    database.restore_port database.port ∉ special) &&
  noneOrAvoids special (pyOrOpt connectionParams.username
    (dictGetOpt database.restore_username database.username)) &&
  splitAvoids special database.restore_options

/-! ## Helper lemmas -/

theorem mem_optPair {t flag : String} {v : Option String}
    (h : t ∈ optPair flag v) : t = flag ∨ v = some t := by
  cases v with
  | none => simp [optPair] at h
  | some a =>
    simp only [optPair, List.mem_cons, List.mem_singleton,
      List.not_mem_nil, or_false] at h
    rcases h with h | h
    · exact Or.inl h
    · exact Or.inr (by rw [h])

theorem mem_flagIfTruthy {t flag : String} {v : Option String}
    (h : t ∈ flagIfTruthy flag v) : t = flag ∨ v = some t := by
  cases v with
  | none => simp [flagIfTruthy] at h
  | some a =>
    by_cases ha : a = ""
    · simp [flagIfTruthy, ha] at h
    · simp only [flagIfTruthy, if_neg ha, List.mem_cons, List.mem_singleton,
        List.not_mem_nil, or_false] at h
      rcases h with h | h
      · exact Or.inl h
      · exact Or.inr (by rw [h])

theorem mem_strFlag {t flag s : String} (h : t ∈ strFlag flag s) :
    t = flag ∨ t = s := by
  by_cases hs : s = ""
  · rw [strFlag, if_pos hs] at h
    exact absurd h (List.not_mem_nil t)
  · rw [strFlag, if_neg hs] at h
    simpa using h

theorem mem_optSplit {t : String} {v : Option String}
    (h : t ∈ optSplit v) : ∃ o, v = some o ∧ t ∈ splitOnSpace o := by
  cases v with
  | none => simp [optSplit] at h
  | some o =>
    exact ⟨o, rfl, by simpa [optSplit] using h⟩

theorem collectFirstFields_ok (rows : List (List String))
    (h : ∀ row ∈ rows, row ≠ []) :
    collectFirstFields rows = Except.ok (rows.map List.headI) := by
  induction rows with
  | nil => rfl
  | cons r rs ih =>
    have hr : r ≠ [] := h r (by simp)
    obtain ⟨a, as, rfl⟩ := List.exists_cons_of_ne_nil hr
    have ih' := ih (fun row hrow => h row (by simp [hrow]))
    simp [collectFirstFields, csvFirstField, ih']

/-! ## Claims -/

/-- C4: PostgreSQL name resolution (`database_names_to_dump`) issues no
server query and returns: exactly the one configured name when it is not
`"all"`; exactly `["all"]` for `"all"` with no (truthy) format
configured; and the empty sequence for `"all"` with a format configured
on a dry run. -/
theorem pg_name_resolution_without_query (database : PgDatabase)
    (oracle : Cmd → String) (dryRun : Bool) :
    (database.name ≠ "all" →
      databaseNamesToDump database oracle dryRun = ([], .ok [database.name])) ∧
    (database.name = "all" → truthy database.format = false →
      databaseNamesToDump database oracle dryRun = ([], .ok ["all"])) ∧
    (database.name = "all" → truthy database.format = true →
      databaseNamesToDump database oracle true = ([], .ok [])) := by
  refine ⟨fun h => ?_, fun h hf => ?_, fun h hf => ?_⟩
  · simp [databaseNamesToDump, h]
  · simp [databaseNamesToDump, h, hf]
  · simp [databaseNamesToDump, h, hf]

/-- Witness for C4 at concrete configurations. -/
theorem pg_name_resolution_without_query_witness :
    databaseNamesToDump { name := "app_db" } (fun _ => "") false
      = ([], .ok ["app_db"]) ∧
    databaseNamesToDump { name := "all" } (fun _ => "") false
      = ([], .ok ["all"]) ∧
    databaseNamesToDump { name := "all", format := some "custom" } (fun _ => "") true
      = ([], .ok []) :=
  ⟨(pg_name_resolution_without_query { name := "app_db" } (fun _ => "") false).1
      (by decide),
   (pg_name_resolution_without_query { name := "all" } (fun _ => "") false).2.1
      (by decide) (by decide),
   (pg_name_resolution_without_query { name := "all", format := some "custom" }
      (fun _ => "") true).2.2 (by decide) (by decide)⟩

/-- C5: when PostgreSQL name resolution for `"all"` with a format does
query the server (not a dry run), it issues exactly the `--list` query
and parses its output as CSV rows, returning the first field of every
row except `template0`/`template1` in row order; in particular the
output with rows `template0`, `template1`, `app_db`, `metrics_db`
resolves to exactly `["app_db", "metrics_db"]`. -/
theorem pg_all_name_resolution_parses_csv :
    (∀ (database : PgDatabase) (oracle : Cmd → String),
      database.name = "all" → truthy database.format = true →
      databaseNamesToDump database oracle false =
        ([.executeCaptureOutput (pgListCommand database)],
          namesFromListOutput (oracle (pgListCommand database)))) ∧
    (∀ output : String,
      (∀ row ∈ (splitLines output).map csvRow, row ≠ []) →
      namesFromListOutput output =
        .ok ((((splitLines output).map csvRow).map List.headI).filter
          (fun f => f ∉ EXCLUDED_DATABASE_NAMES))) ∧
    namesFromListOutput "template0\ntemplate1\napp_db\nmetrics_db\n" =
      .ok ["app_db", "metrics_db"] := by
  refine ⟨fun database oracle h hf => ?_, fun output h => ?_, ?_⟩
  · simp [databaseNamesToDump, h, hf]
  · simp [namesFromListOutput, collectFirstFields_ok _ h]
  · rfl

/-- Witness for C5: the concrete query output of the claim. -/
theorem pg_all_name_resolution_parses_csv_witness :
    databaseNamesToDump { name := "all", format := some "custom" }
      (fun _ => "template0\ntemplate1\napp_db\nmetrics_db\n") false =
      ([.executeCaptureOutput
          (pgListCommand { name := "all", format := some "custom" })],
        namesFromListOutput "template0\ntemplate1\napp_db\nmetrics_db\n") :=
  pg_all_name_resolution_parses_csv.1 _ _ (by decide) (by decide)

theorem databaseNamesToDump_dry (database : PgDatabase) (oracle : Cmd → String) :
    ∃ ns, databaseNamesToDump database oracle true = ([], .ok ns) := by
  by_cases h : database.name = "all"
  · by_cases hf : truthy database.format = true
    · exact ⟨[], by simp [databaseNamesToDump, h, hf]⟩
    · exact ⟨["all"], by simp [databaseNamesToDump, h,
        Bool.eq_false_iff.mpr hf]⟩
  · exact ⟨[database.name], by simp [databaseNamesToDump, h]⟩

theorem pgDumpOne_dry (database : PgDatabase) (fs : String → Bool)
    (logPrefix : String) (dumpPath databaseName : String) :
    (pgDumpOne database fs logPrefix true dumpPath databaseName).2 = [] ∧
    ∀ e ∈ (pgDumpOne database fs logPrefix true dumpPath databaseName).1,
      e.isLauncher = false ∧ e.isArtifactCreation = false := by
  by_cases hfs :
      fs (makeDatabaseDumpFilename dumpPath databaseName database.hostname) = true
  · simp [pgDumpOne, hfs, Event.isLauncher, Event.isArtifactCreation]
  · simp [pgDumpOne, hfs]

theorem pgDumpDatabase_dry (database : PgDatabase) (config : Config)
    (fs : String → Bool) (oracle : Cmd → String) (logPrefix : String) :
    (∀ e ∈ (pgDumpDatabase database config fs oracle logPrefix true).1,
      e.isLauncher = false ∧ e.isArtifactCreation = false) ∧
    (pgDumpDatabase database config fs oracle logPrefix true).2 = .ok [] := by
  obtain ⟨ns, hns⟩ := databaseNamesToDump_dry database oracle
  unfold pgDumpDatabase
  rw [hns]
  by_cases hemp : ns.isEmpty
  · simp [hemp]
  · simp only [hemp, Bool.false_eq_true, if_false, ite_false]
    constructor
    · intro e he
      simp only [List.nil_append, List.map_map, List.mem_flatten,
        List.mem_map, Function.comp] at he
      obtain ⟨l, ⟨name, hname, rfl⟩, hel⟩ := he
      exact (pgDumpOne_dry database fs logPrefix
        (pgMakeDumpPath config) name).2 e hel
    · simp only [List.map_map, Function.comp]
      simp only [Except.ok.injEq]
      rw [List.flatten_eq_nil_iff]
      intro l hl
      simp only [List.mem_map] at hl
      obtain ⟨name, hname, rfl⟩ := hl
      exact (pgDumpOne_dry database fs logPrefix (pgMakeDumpPath config) name).1

theorem pgDumpDatabases_dry (pdbs : List PgDatabase) (config : Config)
    (fs : String → Bool) (oracle : Cmd → String) (logPrefix : String) :
    (∀ e ∈ (pgDumpDatabases pdbs config fs oracle logPrefix true).1,
      e.isLauncher = false ∧ e.isArtifactCreation = false) ∧
    (pgDumpDatabases pdbs config fs oracle logPrefix true).2 = .ok [] := by
  induction pdbs with
  | nil => simp [pgDumpDatabases]
  | cons db rest ih =>
    obtain ⟨hev, hres⟩ := pgDumpDatabase_dry db config fs oracle logPrefix
    simp only [pgDumpDatabases]
    rw [hres, ih.2]
    constructor
    · intro e he
      rcases List.mem_append.mp he with h | h
      · exact hev e h
      · exact ih.1 e h
    · rfl

theorem mongoDumpDatabases_dry (mdbs : List MongoDatabase) (config : Config)
    (fs : String → Bool) : mongoDumpDatabases mdbs config fs true = ([], []) := by
  induction mdbs with
  | nil => rfl
  | cons db rest ih => simp [mongoDumpDatabases, mongoDumpOne, ih]

theorem sqliteDumpOne_dry (database : SqliteDatabase) (config : Config)
    (fs : String → Bool) (logPrefix : String) :
    (sqliteDumpOne database config fs logPrefix true).2 = [] ∧
    ∀ e ∈ (sqliteDumpOne database config fs logPrefix true).1,
      e.isLauncher = false ∧ e.isArtifactCreation = false := by
  unfold sqliteDumpOne
  by_cases h1 : database.name = "all" <;>
    by_cases h2 : fs database.path = true <;>
    by_cases h3 : fs (makeDatabaseDumpFilename (sqliteMakeDumpPath config)
      database.name none) = true <;>
    simp_all [Event.isLauncher, Event.isArtifactCreation]

theorem sqliteDumpDatabases_dry (sdbs : List SqliteDatabase) (config : Config)
    (fs : String → Bool) (logPrefix : String) :
    (∀ e ∈ (sqliteDumpDatabases sdbs config fs logPrefix true).1,
      e.isLauncher = false ∧ e.isArtifactCreation = false) ∧
    (sqliteDumpDatabases sdbs config fs logPrefix true).2 = [] := by
  induction sdbs with
  | nil => simp [sqliteDumpDatabases]
  | cons db rest ih =>
    simp only [sqliteDumpDatabases]
    constructor
    · intro e he
      rcases List.mem_append.mp he with h | h
      · exact (sqliteDumpOne_dry db config fs logPrefix).2 e h
      · exact ih.1 e h
    · rw [(sqliteDumpOne_dry db config fs logPrefix).1, ih.2]
      rfl

/-- C3: with `dry_run` true, none of the three dump orchestrators ever
invokes the process launcher (no `execute_command`, no
`execute_command_and_capture_output` — including the PostgreSQL
`"all"` listing query — no `execute_command_with_processes`), and each
returns an empty sequence of process handles. -/
theorem dry_run_never_invokes_launcher
    (pdbs : List PgDatabase) (mdbs : List MongoDatabase)
    (sdbs : List SqliteDatabase) (config : Config) (fs : String → Bool)
    (oracle : Cmd → String) (logPrefix : String) :
    ((∀ e ∈ (pgDumpDatabases pdbs config fs oracle logPrefix true).1,
        e.isLauncher = false) ∧
      (pgDumpDatabases pdbs config fs oracle logPrefix true).2 = .ok []) ∧
    mongoDumpDatabases mdbs config fs true = ([], []) ∧
    ((∀ e ∈ (sqliteDumpDatabases sdbs config fs logPrefix true).1,
        e.isLauncher = false) ∧
      (sqliteDumpDatabases sdbs config fs logPrefix true).2 = []) :=
  ⟨⟨fun e he => ((pgDumpDatabases_dry pdbs config fs oracle logPrefix).1 e he).1,
    (pgDumpDatabases_dry pdbs config fs oracle logPrefix).2⟩,
   mongoDumpDatabases_dry mdbs config fs,
   ⟨fun e he => ((sqliteDumpDatabases_dry sdbs config fs logPrefix).1 e he).1,
    (sqliteDumpDatabases_dry sdbs config fs logPrefix).2⟩⟩

theorem databaseNamesToDump_events (database : PgDatabase)
    (oracle : Cmd → String) (dryRun : Bool) :
    ∀ e ∈ (databaseNamesToDump database oracle dryRun).1,
      ∃ c, e = .executeCaptureOutput c := by
  intro e he
  unfold databaseNamesToDump at he
  by_cases h1 : database.name = "all"
  · by_cases h2 : truthy database.format = true
    · by_cases h3 : dryRun = true
      · simp [h1, h2, h3] at he
      · simp [h1, h2, h3] at he
        exact ⟨_, he⟩
    · simp [h1, h2] at he
  · simp [h1] at he

theorem pgDumpOne_exists (database : PgDatabase) (logPrefix : String)
    (dryRun : Bool) (dumpPath databaseName : String) :
    pgDumpOne database (fun _ => true) logPrefix dryRun dumpPath databaseName =
      ([.logWarning (logPrefix
        ++ ": Skipping duplicate dump of PostgreSQL database \""
        ++ databaseName ++ "\" to "
        ++ makeDatabaseDumpFilename dumpPath databaseName database.hostname)],
        []) := by
  simp [pgDumpOne]

theorem pgDumpDatabase_exists (database : PgDatabase) (config : Config)
    (oracle : Cmd → String) (logPrefix : String) :
    (∀ e ∈ (pgDumpDatabase database config (fun _ => true) oracle logPrefix false).1,
      e.isExecuteCommand = false ∧ e.isArtifactCreation = false) ∧
    ∀ hs,
      (pgDumpDatabase database config (fun _ => true) oracle logPrefix false).2
        = .ok hs → hs = [] := by
  have hcap := databaseNamesToDump_events database oracle false
  simp only [pgDumpDatabase]
  cases hres : (databaseNamesToDump database oracle false).2 with
  | error err =>
    refine ⟨fun e he => ?_, fun hs h => by simp at h⟩
    obtain ⟨c, rfl⟩ := hcap e he
    exact ⟨rfl, rfl⟩
  | ok names =>
    by_cases hemp : names.isEmpty
    · simp only [hemp, if_true, Bool.false_eq_true, if_false, ite_true, ite_false]
      refine ⟨fun e he => ?_, fun hs h => by simp at h⟩
      obtain ⟨c, rfl⟩ := hcap e he
      exact ⟨rfl, rfl⟩
    · simp only [hemp, Bool.false_eq_true, if_false, ite_false]
      constructor
      · intro e he
        rcases List.mem_append.mp he with h | h
        · obtain ⟨c, rfl⟩ := hcap e h
          exact ⟨rfl, rfl⟩
        · simp only [List.map_map, List.mem_flatten, List.mem_map,
            Function.comp] at h
          obtain ⟨l, ⟨name, hname, rfl⟩, hel⟩ := h
          rw [pgDumpOne_exists] at hel
          simp at hel
          subst hel
          exact ⟨rfl, rfl⟩
      · intro hs h
        simp only [Except.ok.injEq] at h
        subst h
        rw [List.flatten_eq_nil_iff]
        intro l hl
        simp only [List.map_map, List.mem_map, Function.comp] at hl
        obtain ⟨name, hname, rfl⟩ := hl
        rw [pgDumpOne_exists]

theorem sqliteDumpOne_exists (database : SqliteDatabase) (config : Config)
    (logPrefix : String) (dryRun : Bool) :
    (∀ e ∈ (sqliteDumpOne database config (fun _ => true) logPrefix dryRun).1,
      ∃ m, e = .logWarning m) ∧
    (sqliteDumpOne database config (fun _ => true) logPrefix dryRun).2 = [] := by
  unfold sqliteDumpOne
  by_cases h1 : database.name = "all" <;> simp [h1]

theorem mongoDumpDatabases_fs_independent (mdbs : List MongoDatabase)
    (config : Config) (fs fs' : String → Bool) (dryRun : Bool) :
    mongoDumpDatabases mdbs config fs dryRun =
      mongoDumpDatabases mdbs config fs' dryRun := by
  induction mdbs with
  | nil => rfl
  | cons db rest ih => simp [mongoDumpDatabases, ih]

/-- C1 (amended): on a filesystem where every path exists, the
PostgreSQL and SQLite dump orchestrators launch no dump command and
create no artifact, returning no handles (each affected entry is skipped
with a warning — shown exactly for a single-entry configuration); the
MongoDB dump orchestrator, by contrast, performs no existence check at
all: its behaviour is independent of the filesystem. -/
theorem dump_skips_existing_artifact
    (pdbs : List PgDatabase) (sdbs : List SqliteDatabase)
    (database : PgDatabase) (sdatabase : SqliteDatabase)
    (mdbs : List MongoDatabase) (config : Config) (fs fs' : String → Bool)
    (oracle : Cmd → String) (logPrefix : String)
    (hpg : database.name ≠ "all") (hsq : sdatabase.name ≠ "all") :
    ((∀ e ∈ (pgDumpDatabases pdbs config (fun _ => true) oracle logPrefix false).1,
        e.isExecuteCommand = false ∧ e.isArtifactCreation = false) ∧
      (∀ hs, (pgDumpDatabases pdbs config (fun _ => true) oracle logPrefix false).2
        = .ok hs → hs = [])) ∧
    pgDumpDatabases [database] config (fun _ => true) oracle logPrefix false =
      ([.logWarning (logPrefix
        ++ ": Skipping duplicate dump of PostgreSQL database \""
        ++ database.name ++ "\" to "
        ++ makeDatabaseDumpFilename (pgMakeDumpPath config) database.name
          database.hostname)], .ok []) ∧
    ((∀ e ∈ (sqliteDumpDatabases sdbs config (fun _ => true) logPrefix false).1,
        e.isLauncher = false ∧ e.isArtifactCreation = false) ∧
      (sqliteDumpDatabases sdbs config (fun _ => true) logPrefix false).2 = []) ∧
    sqliteDumpDatabases [sdatabase] config (fun _ => true) logPrefix false =
      ([.logWarning (logPrefix
        ++ ": Skipping duplicate dump of SQLite database at "
        ++ sdatabase.path ++ " to "
        ++ makeDatabaseDumpFilename (sqliteMakeDumpPath config)
          sdatabase.name none)], []) ∧
    mongoDumpDatabases mdbs config fs false =
      mongoDumpDatabases mdbs config fs' false := by
  refine ⟨?_, ?_, ?_, ?_, mongoDumpDatabases_fs_independent mdbs config fs fs' false⟩
  · induction pdbs with
    | nil => exact ⟨by simp [pgDumpDatabases], by simp [pgDumpDatabases]⟩
    | cons db rest ih =>
      obtain ⟨hev, hok⟩ := pgDumpDatabase_exists db config oracle logPrefix
      simp only [pgDumpDatabases]
      cases hres : (pgDumpDatabase db config (fun _ => true) oracle logPrefix false).2 with
      | error err => exact ⟨fun e he => hev e he, fun hs h => by simp at h⟩
      | ok handles =>
        have hh : handles = [] := hok handles hres
        subst hh
        cases hrr : (pgDumpDatabases rest config (fun _ => true) oracle logPrefix false).2 with
        | error err =>
          refine ⟨fun e he => ?_, fun hs h => by simp at h⟩
          rcases List.mem_append.mp he with h | h
          · exact hev e h
          · exact ih.1 e h
        | ok restHandles =>
          refine ⟨fun e he => ?_, fun hs h => ?_⟩
          · rcases List.mem_append.mp he with h | h
            · exact hev e h
            · exact ih.1 e h
          · simp only [Except.ok.injEq] at h
            subst h
            simpa using ih.2 restHandles hrr
  · simp only [pgDumpDatabases, pgDumpDatabase, databaseNamesToDump]
    simp [hpg, pgDumpOne_exists, pgDumpDatabases]
  · induction sdbs with
    | nil => simp [sqliteDumpDatabases]
    | cons db rest ih =>
      obtain ⟨hev, hh⟩ := sqliteDumpOne_exists db config logPrefix false
      simp only [sqliteDumpDatabases]
      refine ⟨fun e he => ?_, ?_⟩
      · rcases List.mem_append.mp he with h | h
        · obtain ⟨m, rfl⟩ := hev e h
          exact ⟨rfl, rfl⟩
        · exact ih.1 e h
      · rw [hh, ih.2]
        rfl
  · simp only [sqliteDumpDatabases, sqliteDumpOne]
    simp [hsq]

/-- C1 counterexample: a MongoDB database entry whose dump artifact path
already exists on disk (here: every path exists) is not skipped — the
launcher is still invoked and a handle returned, because
`mongodb.dump_databases` has no existence check. -/
theorem mongo_dumps_despite_existing_artifact :
    ((mongoDumpDatabases [{ name := "app" }] {} (fun _ => true) false).1.any
      (fun e => e.isLauncher)) = true ∧
    (mongoDumpDatabases [{ name := "app" }] {} (fun _ => true) false).2 ≠ [] := by
  constructor
  · rfl
  · decide

/-- Witness for the amended C1 at concrete configurations. -/
theorem dump_skips_existing_artifact_witness :
    pgDumpDatabases [{ name := "foo" }] {} (fun _ => true) (fun _ => "") "pre" false =
      ([.logWarning ("pre"
        ++ ": Skipping duplicate dump of PostgreSQL database \""
        ++ "foo" ++ "\" to "
        ++ makeDatabaseDumpFilename (pgMakeDumpPath {}) "foo" none)], .ok []) ∧
    sqliteDumpDatabases [{ name := "db", path := "/data/db" }] {}
        (fun _ => true) "pre" false =
      ([.logWarning ("pre"
        ++ ": Skipping duplicate dump of SQLite database at "
        ++ "/data/db" ++ " to "
        ++ makeDatabaseDumpFilename (sqliteMakeDumpPath {}) "db" none)], []) :=
  ⟨(dump_skips_existing_artifact [] [] { name := "foo" }
      { name := "db", path := "/data/db" } [] {} (fun _ => true) (fun _ => true)
      (fun _ => "") "pre" (by decide) (by decide)).2.1,
   (dump_skips_existing_artifact [] [] { name := "foo" }
      { name := "db", path := "/data/db" } [] {} (fun _ => true) (fun _ => true)
      (fun _ => "") "pre" (by decide) (by decide)).2.2.2.1⟩

theorem pgDumpOne_pipe (database : PgDatabase) (fs : String → Bool)
    (logPrefix dumpPath databaseName : String)
    (hfs : fs (makeDatabaseDumpFilename dumpPath databaseName database.hostname)
      = false)
    (hfmt : pgDumpFormat database databaseName ≠ some "directory") :
    pgDumpOne database fs logPrefix false dumpPath databaseName =
      ([.createNamedPipe
          (makeDatabaseDumpFilename dumpPath databaseName database.hostname),
        .executeCommand (pgDumpCommand database databaseName
          (makeDatabaseDumpFilename dumpPath databaseName database.hostname))
          false],
       [pgDumpCommand database databaseName
          (makeDatabaseDumpFilename dumpPath databaseName database.hostname)]) := by
  simp [pgDumpOne, hfs, hfmt]

theorem pgDumpOne_directory (database : PgDatabase) (fs : String → Bool)
    (logPrefix dumpPath databaseName : String)
    (hfs : fs (makeDatabaseDumpFilename dumpPath databaseName database.hostname)
      = false)
    (hfmt : pgDumpFormat database databaseName = some "directory") :
    pgDumpOne database fs logPrefix false dumpPath databaseName =
      ([.createParentDirectory
          (makeDatabaseDumpFilename dumpPath databaseName database.hostname),
        .executeCommand (pgDumpCommand database databaseName
          (makeDatabaseDumpFilename dumpPath databaseName database.hostname))
          true],
       []) := by
  simp [pgDumpOne, hfs, hfmt]

/-- C2 (amended): for a database entry that is not skipped, outside a
dry run: PostgreSQL and MongoDB create a named pipe at the artifact path
and then launch the dump as a non-blocking process whose handle is
returned, for every format except `directory`; for the `directory`
format they instead create the artifact's parent directory and run the
command to completion, returning no handle.  SQLite (which has no dump
format) creates the artifact's parent directory — never a named pipe —
and still launches non-blocking, returning the handle. -/
theorem dump_artifact_creation_and_launch
    (database : PgDatabase) (mdatabase : MongoDatabase)
    (sdatabase : SqliteDatabase) (config : Config) (fs : String → Bool)
    (oracle : Cmd → String) (logPrefix : String) :
    (dictGet mdatabase.format "archive" ≠ "directory" →
      mongoDumpDatabases [mdatabase] config fs false =
        ([.createNamedPipe (makeDatabaseDumpFilename (mongoMakeDumpPath config)
            mdatabase.name mdatabase.hostname),
          .executeCommand (mongoBuildDumpCommand mdatabase
            (makeDatabaseDumpFilename (mongoMakeDumpPath config)
              mdatabase.name mdatabase.hostname)
            (dictGet mdatabase.format "archive")) false],
         [mongoBuildDumpCommand mdatabase
            (makeDatabaseDumpFilename (mongoMakeDumpPath config)
              mdatabase.name mdatabase.hostname)
            (dictGet mdatabase.format "archive")])) ∧
    (dictGet mdatabase.format "archive" = "directory" →
      mongoDumpDatabases [mdatabase] config fs false =
        ([.createParentDirectory (makeDatabaseDumpFilename (mongoMakeDumpPath config)
            mdatabase.name mdatabase.hostname),
          .executeCommand (mongoBuildDumpCommand mdatabase
            (makeDatabaseDumpFilename (mongoMakeDumpPath config)
              mdatabase.name mdatabase.hostname) "directory") true],
         [])) ∧
    (database.name ≠ "all" →
      fs (makeDatabaseDumpFilename (pgMakeDumpPath config) database.name
        database.hostname) = false →
      pgDumpFormat database database.name ≠ some "directory" →
      pgDumpDatabases [database] config fs oracle logPrefix false =
        ([.createNamedPipe (makeDatabaseDumpFilename (pgMakeDumpPath config)
            database.name database.hostname),
          .executeCommand (pgDumpCommand database database.name
            (makeDatabaseDumpFilename (pgMakeDumpPath config) database.name
              database.hostname)) false],
         .ok [pgDumpCommand database database.name
            (makeDatabaseDumpFilename (pgMakeDumpPath config) database.name
              database.hostname)])) ∧
    (database.name ≠ "all" →
      fs (makeDatabaseDumpFilename (pgMakeDumpPath config) database.name
        database.hostname) = false →
      pgDumpFormat database database.name = some "directory" →
      pgDumpDatabases [database] config fs oracle logPrefix false =
        ([.createParentDirectory (makeDatabaseDumpFilename (pgMakeDumpPath config)
            database.name database.hostname),
          .executeCommand (pgDumpCommand database database.name
            (makeDatabaseDumpFilename (pgMakeDumpPath config) database.name
              database.hostname)) true],
         .ok [])) ∧
    (sdatabase.name ≠ "all" →
      fs sdatabase.path = true →
      fs (makeDatabaseDumpFilename (sqliteMakeDumpPath config) sdatabase.name
        none) = false →
      sqliteDumpDatabases [sdatabase] config fs logPrefix false =
        ([.createParentDirectory (makeDatabaseDumpFilename
            (sqliteMakeDumpPath config) sdatabase.name none),
          .executeCommand ["sqlite3", sdatabase.path, ".dump", ">",
            makeDatabaseDumpFilename (sqliteMakeDumpPath config)
              sdatabase.name none] false],
         [["sqlite3", sdatabase.path, ".dump", ">",
            makeDatabaseDumpFilename (sqliteMakeDumpPath config)
              sdatabase.name none]])) := by
  refine ⟨fun hfmt => ?_, fun hfmt => ?_, fun hname hfs hfmt => ?_,
    fun hname hfs hfmt => ?_, fun hname hpath hfs => ?_⟩
  · simp [mongoDumpDatabases, mongoDumpOne, hfmt]
  · simp [mongoDumpDatabases, mongoDumpOne, hfmt]
  · simp only [pgDumpDatabases, pgDumpDatabase, databaseNamesToDump]
    simp [hname, pgDumpOne_pipe database fs logPrefix (pgMakeDumpPath config)
      database.name hfs hfmt, pgDumpDatabases]
  · simp only [pgDumpDatabases, pgDumpDatabase, databaseNamesToDump]
    simp [hname, pgDumpOne_directory database fs logPrefix (pgMakeDumpPath config)
      database.name hfs hfmt, pgDumpDatabases]
  · simp only [sqliteDumpDatabases, sqliteDumpOne]
    simp [hname, hpath, hfs]

/-- C2 counterexample: a SQLite entry (necessarily non-directory: the
SQLite hook has no dump format), not skipped, gets no named pipe — the
parent directory is created instead — yet the dump is still launched
non-blocking with its handle returned, contradicting the claim that
every such entry gets a named pipe at the artifact path. -/
theorem sqlite_dump_creates_no_named_pipe :
    sqliteDumpDatabases [{ name := "db", path := "/data/db" }] {}
        (fun p => p = "/data/db") "pre" false =
      ([.createParentDirectory "~/.borgmatic/sqlite_databases/db",
        .executeCommand ["sqlite3", "/data/db", ".dump", ">",
          "~/.borgmatic/sqlite_databases/db"] false],
       [["sqlite3", "/data/db", ".dump", ">",
          "~/.borgmatic/sqlite_databases/db"]]) ∧
    ((sqliteDumpDatabases [{ name := "db", path := "/data/db" }] {}
        (fun p => p = "/data/db") "pre" false).1.all
      (fun e => !e.isNamedPipeCreation)) = true := by
  constructor
  · decide
  · decide

/-- Witness for the amended C2 at concrete configurations. -/
theorem dump_artifact_creation_and_launch_witness :
    mongoDumpDatabases [{ name := "app" }] {} (fun _ => false) false =
      ([.createNamedPipe (makeDatabaseDumpFilename (mongoMakeDumpPath {})
          "app" none),
        .executeCommand (mongoBuildDumpCommand { name := "app" }
          (makeDatabaseDumpFilename (mongoMakeDumpPath {}) "app" none)
          "archive") false],
       [mongoBuildDumpCommand { name := "app" }
          (makeDatabaseDumpFilename (mongoMakeDumpPath {}) "app" none)
          "archive"]) ∧
    mongoDumpDatabases [{ name := "app", format := some "directory" }] {}
        (fun _ => false) false =
      ([.createParentDirectory (makeDatabaseDumpFilename (mongoMakeDumpPath {})
          "app" none),
        .executeCommand (mongoBuildDumpCommand
          { name := "app", format := some "directory" }
          (makeDatabaseDumpFilename (mongoMakeDumpPath {}) "app" none)
          "directory") true],
       []) ∧
    pgDumpDatabases [{ name := "foo" }] {} (fun _ => false) (fun _ => "")
        "pre" false =
      ([.createNamedPipe (makeDatabaseDumpFilename (pgMakeDumpPath {})
          "foo" none),
        .executeCommand (pgDumpCommand { name := "foo" } "foo"
          (makeDatabaseDumpFilename (pgMakeDumpPath {}) "foo" none)) false],
       .ok [pgDumpCommand { name := "foo" } "foo"
          (makeDatabaseDumpFilename (pgMakeDumpPath {}) "foo" none)]) ∧
    sqliteDumpDatabases [{ name := "db", path := "/data/db" }] {}
        (fun p => p = "/data/db") "pre" false =
      ([.createParentDirectory (makeDatabaseDumpFilename (sqliteMakeDumpPath {})
          "db" none),
        .executeCommand ["sqlite3", "/data/db", ".dump", ">",
          makeDatabaseDumpFilename (sqliteMakeDumpPath {}) "db" none] false],
       [["sqlite3", "/data/db", ".dump", ">",
          makeDatabaseDumpFilename (sqliteMakeDumpPath {}) "db" none]]) :=
  ⟨(dump_artifact_creation_and_launch { name := "foo" } { name := "app" }
      { name := "db", path := "/data/db" } {} (fun _ => false) (fun _ => "")
      "pre").1 (by decide),
   (dump_artifact_creation_and_launch { name := "foo" }
      { name := "app", format := some "directory" }
      { name := "db", path := "/data/db" } {} (fun _ => false) (fun _ => "")
      "pre").2.1 (by decide),
   (dump_artifact_creation_and_launch { name := "foo" } { name := "app" }
      { name := "db", path := "/data/db" } {} (fun _ => false) (fun _ => "")
      "pre").2.2.1 (by decide) rfl (by decide),
   (dump_artifact_creation_and_launch { name := "foo" } { name := "app" }
      { name := "db", path := "/data/db" } {} (fun p => p = "/data/db")
      (fun _ => "") "pre").2.2.2.2 (by decide) (by decide) (by decide)⟩

/-- Witness for C3 at concrete configurations. -/
theorem dry_run_never_invokes_launcher_witness :
    (pgDumpDatabases [{ name := "foo" }] {} (fun _ => false) (fun _ => "")
      "pre" true).2 = .ok [] ∧
    mongoDumpDatabases [{ name := "app" }] {} (fun _ => false) true = ([], []) ∧
    (sqliteDumpDatabases [{ name := "db", path := "/data/db" }] {}
      (fun _ => false) "pre" true).2 = [] :=
  ⟨(dry_run_never_invokes_launcher [{ name := "foo" }] [{ name := "app" }]
      [{ name := "db", path := "/data/db" }] {} (fun _ => false) (fun _ => "")
      "pre").1.2,
   (dry_run_never_invokes_launcher [{ name := "foo" }] [{ name := "app" }]
      [{ name := "db", path := "/data/db" }] {} (fun _ => false) (fun _ => "")
      "pre").2.1,
   (dry_run_never_invokes_launcher [{ name := "foo" }] [{ name := "app" }]
      [{ name := "db", path := "/data/db" }] {} (fun _ => false) (fun _ => "")
      "pre").2.2.2⟩

/-- C7: every engine's `restore_database_dump` raises a `ValueError`
naming the requested database — with no side effects — when no
configuration entry has that name; and a non-dry-run PostgreSQL dump
whose name resolution yields no databases raises a `ValueError`. -/
theorem restore_missing_database_raises
    (pdbs : List PgDatabase) (mdbs : List MongoDatabase)
    (sdbs : List SqliteDatabase) (config : Config) (fs : String → Bool)
    (oracle : Cmd → String) (logPrefix databaseName : String)
    (dryRun hasExtract : Bool) (cp : ConnectionParams) (database : PgDatabase)
    (hp : ∀ d ∈ pdbs, d.name ≠ databaseName)
    (hm : ∀ d ∈ mdbs, d.name ≠ databaseName)
    (hs : ∀ d ∈ sdbs, d.name ≠ databaseName)
    (hall : database.name = "all") (hfmt : truthy database.format = true)
    (hempty : namesFromListOutput (oracle (pgListCommand database)) = .ok []) :
    pgRestoreDatabaseDump pdbs config databaseName dryRun hasExtract cp =
      ([], some (.valueError ("A database named \"" ++ databaseName
        ++ "\" could not be found in the configuration"))) ∧
    mongoRestoreDatabaseDump mdbs config databaseName dryRun hasExtract cp =
      ([], some (.valueError ("A database named \"" ++ databaseName
        ++ "\" could not be found in the configuration"))) ∧
    sqliteRestoreDatabaseDump sdbs fs logPrefix databaseName dryRun hasExtract cp =
      ([], some (.valueError ("A database named \"" ++ databaseName
        ++ "\" could not be found in the configuration"))) ∧
    pgDumpDatabases [database] config fs oracle logPrefix false =
      ([.executeCaptureOutput (pgListCommand database)],
        .error (.valueError "Cannot find any PostgreSQL databases to dump.")) := by
  have hfp : pdbs.find? (fun d => d.name = databaseName) = none :=
    List.find?_eq_none.mpr (fun x hx => by simp [hp x hx])
  have hfm : mdbs.find? (fun d => d.name = databaseName) = none :=
    List.find?_eq_none.mpr (fun x hx => by simp [hm x hx])
  have hfs : sdbs.find? (fun d => d.name = databaseName) = none :=
    List.find?_eq_none.mpr (fun x hx => by simp [hs x hx])
  refine ⟨?_, ?_, ?_, ?_⟩
  · simp [pgRestoreDatabaseDump, hfp]
  · simp [mongoRestoreDatabaseDump, hfm]
  · simp [sqliteRestoreDatabaseDump, hfs]
  · simp only [pgDumpDatabases, pgDumpDatabase, databaseNamesToDump]
    simp [hall, hfmt, hempty]

/-- Witness for C7 at concrete configurations. -/
theorem restore_missing_database_raises_witness :
    pgRestoreDatabaseDump [{ name := "other" }] {} "mydb" false false {} =
      ([], some (.valueError ("A database named \"" ++ "mydb"
        ++ "\" could not be found in the configuration"))) ∧
    mongoRestoreDatabaseDump [{ name := "other" }] {} "mydb" false false {} =
      ([], some (.valueError ("A database named \"" ++ "mydb"
        ++ "\" could not be found in the configuration"))) ∧
    sqliteRestoreDatabaseDump [{ name := "other", path := "/data/db" }]
        (fun _ => false) "pre" "mydb" false false {} =
      ([], some (.valueError ("A database named \"" ++ "mydb"
        ++ "\" could not be found in the configuration"))) ∧
    pgDumpDatabases [{ name := "all", format := some "custom" }] {}
        (fun _ => false) (fun _ => "template0\ntemplate1\n") "pre" false =
      ([.executeCaptureOutput
          (pgListCommand { name := "all", format := some "custom" })],
        .error (.valueError "Cannot find any PostgreSQL databases to dump.")) :=
  restore_missing_database_raises [{ name := "other" }] [{ name := "other" }]
    [{ name := "other", path := "/data/db" }] {} (fun _ => false)
    (fun _ => "template0\ntemplate1\n") "pre" "mydb" false false {}
    { name := "all", format := some "custom" }
    (by decide) (by decide) (by decide) (by decide) (by decide) (by rfl)

/-- C9: outside a dry run, `sqlite.restore_database_dump` with
`extract_process = None` fails with an attribute access on `None`
(`extract_process.stdout`) instead of restoring from the on-disk dump
artifact: no restore command is ever launched; with an active extract
process the same call succeeds.  (The file-removal side effect before
the failure is part of the recorded trace.) -/
theorem sqlite_restore_requires_extract_process
    (sdbs : List SqliteDatabase) (fs : String → Bool)
    (logPrefix databaseName : String) (cp : ConnectionParams)
    (database : SqliteDatabase)
    (hfound : sdbs.find? (fun d => d.name = databaseName) = some database) :
    (sqliteRestoreDatabaseDump sdbs fs logPrefix databaseName false false cp).2 =
      some (.attributeError "NoneType object has no attribute stdout") ∧
    (∀ e ∈ (sqliteRestoreDatabaseDump sdbs fs logPrefix databaseName false false cp).1,
      e.isLauncher = false) ∧
    (sqliteRestoreDatabaseDump sdbs fs logPrefix databaseName false true cp).2 =
      none := by
  by_cases hpath : fs (pyOrStr cp.restore_path
      (dictGet database.restore_path database.path)) = true <;>
    simp [sqliteRestoreDatabaseDump, hfound, hpath, Event.isLauncher]

/-- Witness for C9 at a concrete configuration. -/
theorem sqlite_restore_requires_extract_process_witness :
    (sqliteRestoreDatabaseDump [{ name := "db", path := "/data/db" }]
      (fun _ => false) "pre" "db" false false {}).2 =
      some (.attributeError "NoneType object has no attribute stdout") ∧
    (sqliteRestoreDatabaseDump [{ name := "db", path := "/data/db" }]
      (fun _ => false) "pre" "db" false true {}).2 = none :=
  ⟨(sqlite_restore_requires_extract_process [{ name := "db", path := "/data/db" }]
      (fun _ => false) "pre" "db" {} { name := "db", path := "/data/db" }
      (by decide)).1,
   (sqlite_restore_requires_extract_process [{ name := "db", path := "/data/db" }]
      (fun _ => false) "pre" "db" {} { name := "db", path := "/data/db" }
      (by decide)).2.2⟩

theorem noneOrAvoids_spec {special : List String} {v : Option String}
    (h : noneOrAvoids special v = true) {s : String} (hv : v = some s) :
    s ∉ special := by
  subst hv
  simpa [noneOrAvoids] using h

theorem splitAvoids_spec {special : List String} {v : Option String}
    (h : splitAvoids special v = true) {o : String} (hv : v = some o) :
    ∀ t ∈ splitOnSpace o, t ∉ special := by
  subst hv
  intro t ht
  simp only [splitAvoids, List.all_eq_true, decide_eq_true_eq] at h
  exact h t ht

theorem mongo_base_no_nsInclude (he : Bool) (m : MongoDatabase) (f : String)
    (cp : ConnectionParams) (hclean : mongoRestoreClean m cp f = true) :
    "--nsInclude" ∉ mongoRestoreCommandBase he m f cp := by
  simp only [mongoRestoreClean, Bool.and_eq_true, decide_eq_true_eq] at hclean
  obtain ⟨⟨⟨⟨⟨⟨⟨hname, hfile⟩, hhost⟩, hport⟩, huser⟩, hpass⟩, hauth⟩, hopts⟩ :=
    hclean
  simp only [List.mem_singleton] at hname hfile hport
  intro hmem
  simp only [mongoRestoreCommandBase, List.mem_append, List.mem_cons,
    List.mem_singleton, List.not_mem_nil, or_false, false_or, or_assoc] at hmem
  rcases hmem with h | h | h | h | h | h | h | h | h
  · simp at h
  · split at h
    · simp at h
    · simp at h
      exact hfile h.symm
  · split at h
    · simp at h
      exact hname h.symm
    · simp at h
  · rcases mem_flagIfTruthy h with h | h
    · simp at h
    · exact absurd (List.mem_singleton.mpr rfl) (noneOrAvoids_spec hhost h)
  · rcases mem_strFlag h with h | h
    · simp at h
    · exact hport h.symm
  · rcases mem_flagIfTruthy h with h | h
    · simp at h
    · exact absurd (List.mem_singleton.mpr rfl) (noneOrAvoids_spec huser h)
  · rcases mem_flagIfTruthy h with h | h
    · simp at h
    · exact absurd (List.mem_singleton.mpr rfl) (noneOrAvoids_spec hpass h)
  · rcases mem_optPair h with h | h
    · simp at h
    · exact absurd (List.mem_singleton.mpr rfl) (noneOrAvoids_spec hauth h)
  · obtain ⟨o, ho, hto⟩ := mem_optSplit h
    exact absurd (List.mem_singleton.mpr rfl) (splitAvoids_spec hopts ho _ hto)

theorem pg_restore_no_schema_flag (p : PgDatabase) (cp : ConnectionParams)
    (f : String) (he : Bool) (hclean : pgRestoreClean p cp f = true)
    (hsch : p.schemas = none) :
    "--schema" ∉ pgRestoreCommand p cp he f := by
  simp only [pgRestoreClean, Bool.and_eq_true, decide_eq_true_eq] at hclean
  obtain ⟨⟨⟨⟨⟨⟨⟨hname, hfile⟩, hpsql⟩, hrest⟩, hhost⟩, hport⟩, huser⟩, hopts⟩ :=
    hclean
  simp only [List.mem_singleton] at hname hfile hport
  intro hmem
  simp only [pgRestoreCommand, pgSchemaList, hsch, List.isEmpty_nil, if_true,
    List.append_nil, List.mem_append, List.mem_cons, List.mem_singleton,
    List.not_mem_nil, or_false, false_or, or_assoc] at hmem
  rcases hmem with h | h | h | h | h | h | h | h | h | h
  · split at h
    · exact absurd (List.mem_singleton.mpr rfl)
        (List.all_eq_true.mp hpsql _ h |> decide_eq_true_eq.mp)
    · exact absurd (List.mem_singleton.mpr rfl)
        (List.all_eq_true.mp hrest _ h |> decide_eq_true_eq.mp)
  · simp at h
  · split at h <;> simp at h
  · split at h
    · simp at h
      exact hname h.symm
    · simp at h
  · rcases mem_flagIfTruthy h with h | h
    · simp at h
    · exact absurd (List.mem_singleton.mpr rfl) (noneOrAvoids_spec hhost h)
  · rcases mem_strFlag h with h | h
    · simp at h
    · exact hport h.symm
  · rcases mem_flagIfTruthy h with h | h
    · simp at h
    · exact absurd (List.mem_singleton.mpr rfl) (noneOrAvoids_spec huser h)
  · split at h <;> simp at h
  · obtain ⟨o, ho, hto⟩ := mem_optSplit h
    exact absurd (List.mem_singleton.mpr rfl) (splitAvoids_spec hopts ho _ hto)
  · split at h
    · simp at h
    · simp at h
      exact hfile h.symm

/-- C10: `mongodb.build_restore_command` indexes `database['schemas']`
directly, so a configuration lacking the `schemas` key fails with a
`KeyError` (propagated by `restore_database_dump` before anything runs),
while a present `None` or empty-list value merely yields a command with
no `--nsInclude` flags; PostgreSQL's restore treats the field as
optional via `.get`, producing a command with no `--schema` flags when
it is absent. -/
theorem mongo_restore_schemas_key_required :
    (∀ (m : MongoDatabase) (cp : ConnectionParams) (f : String) (he : Bool),
      m.schemas = none →
      mongoBuildRestoreCommand he m f cp = .error (.keyError "schemas")) ∧
    (∀ (mdbs : List MongoDatabase) (config : Config) (name : String)
      (dryRun he : Bool) (cp : ConnectionParams) (m : MongoDatabase),
      mdbs.find? (fun d => d.name = name) = some m → m.schemas = none →
      mongoRestoreDatabaseDump mdbs config name dryRun he cp =
        ([], some (.keyError "schemas"))) ∧
    (∀ (m : MongoDatabase) (cp : ConnectionParams) (f : String) (he : Bool),
      mongoRestoreClean m cp f = true → m.schemas = some none →
      ∃ c, mongoBuildRestoreCommand he m f cp = .ok c ∧ "--nsInclude" ∉ c) ∧
    (∀ (m : MongoDatabase) (cp : ConnectionParams) (f : String) (he : Bool),
      mongoRestoreClean m cp f = true → m.schemas = some (some []) →
      ∃ c, mongoBuildRestoreCommand he m f cp = .ok c ∧ "--nsInclude" ∉ c) ∧
    (∀ (p : PgDatabase) (cp : ConnectionParams) (f : String) (he : Bool),
      pgRestoreClean p cp f = true → p.schemas = none →
      "--schema" ∉ pgRestoreCommand p cp he f) := by
  refine ⟨fun m cp f he hsch => ?_, fun mdbs config name dryRun he cp m hfind hsch => ?_,
    fun m cp f he hclean hsch => ?_, fun m cp f he hclean hsch => ?_,
    fun p cp f he hclean hsch => pg_restore_no_schema_flag p cp f he hclean hsch⟩
  · simp [mongoBuildRestoreCommand, hsch]
  · simp [mongoRestoreDatabaseDump, hfind, mongoBuildRestoreCommand, hsch]
  · refine ⟨mongoRestoreCommandBase he m f cp, by simp [mongoBuildRestoreCommand, hsch], ?_⟩
    exact mongo_base_no_nsInclude he m f cp hclean
  · refine ⟨mongoRestoreCommandBase he m f cp, by simp [mongoBuildRestoreCommand, hsch], ?_⟩
    exact mongo_base_no_nsInclude he m f cp hclean

/-- Witness for C10 at concrete configurations. -/
theorem mongo_restore_schemas_key_required_witness :
    mongoBuildRestoreCommand true { name := "app" } "f" {} =
      .error (.keyError "schemas") ∧
    mongoRestoreDatabaseDump [{ name := "app" }] {} "app" false true {} =
      ([], some (.keyError "schemas")) ∧
    (∃ c, mongoBuildRestoreCommand true { name := "app", schemas := some none }
      "f" {} = .ok c ∧ "--nsInclude" ∉ c) ∧
    (∃ c, mongoBuildRestoreCommand true
      { name := "app", schemas := some (some []) } "f" {} = .ok c ∧
      "--nsInclude" ∉ c) ∧
    "--schema" ∉ pgRestoreCommand { name := "app" } {} true "f" :=
  ⟨mongo_restore_schemas_key_required.1 { name := "app" } {} "f" true rfl,
   mongo_restore_schemas_key_required.2.1 [{ name := "app" }] {} "app"
     false true {} { name := "app" } (by rfl) rfl,
   mongo_restore_schemas_key_required.2.2.1
     { name := "app", schemas := some none } {} "f" true (by decide) rfl,
   mongo_restore_schemas_key_required.2.2.2.1
     { name := "app", schemas := some (some []) } {} "f" true (by decide) rfl,
   mongo_restore_schemas_key_required.2.2.2.2 { name := "app" } {} "f" true
     (by decide) rfl⟩

theorem infix_extend_right {α} {l₁ l₂ : List α} (h : l₁ <:+: l₂)
    (l₃ : List α) : l₁ <:+: l₂ ++ l₃ := by
  obtain ⟨s, t, rfl⟩ := h
  exact ⟨s, t ++ l₃, by simp⟩

theorem infix_extend_left {α} {l₁ l₂ : List α} (h : l₁ <:+: l₂)
    (l₃ : List α) : l₁ <:+: l₃ ++ l₂ := by
  obtain ⟨s, t, rfl⟩ := h
  exact ⟨l₃ ++ s, t, by simp⟩

theorem restoreHostname_cp {c r d : Option String} {h : String}
    (hc : c = some h) (hne : h ≠ "") : restoreHostname c r d = some h := by
  subst hc
  simp [restoreHostname, pyOrOpt, hne]

/-- C8: every connection value used by the restore builders follows the
precedence chain — a truthy restore-time connection parameter wins;
otherwise a present `restore_*` configuration field wins (even a falsy
one, per `.get` semantics); otherwise the dump-time field is used — and
in particular, with a non-empty connection-parameter hostname the built
MongoDB and PostgreSQL restore commands carry `--host <that hostname>`
regardless of any configured `restore_hostname`. -/
theorem restore_connection_precedence :
    (∀ c r d : Option String, truthy c = true → restoreHostname c r d = c) ∧
    (∀ (c r d : Option String) (v : String), truthy c = false → r = some v →
      restoreHostname c r d = some v) ∧
    (∀ c r d : Option String, truthy c = false → r = none →
      restoreHostname c r d = d) ∧
    (∀ (c r d : Option String) (s : String), c = some s → s ≠ "" →
      restorePort c r d = s) ∧
    (∀ (c r d : Option String) (v : String), truthy c = false → r = some v →
      restorePort c r d = v) ∧
    (∀ c r d : Option String, truthy c = false → r = none →
      restorePort c r d = dictGet d "") ∧
    (∀ c r d : Option String, pyOrOpt c (dictGetOpt r d) = restoreHostname c r d) ∧
    (∀ (m : MongoDatabase) (cp : ConnectionParams) (f : String) (he : Bool)
      (h : String), cp.hostname = some h → h ≠ "" →
      ["--host", h] <:+: mongoRestoreCommandBase he m f cp) ∧
    (∀ (p : PgDatabase) (cp : ConnectionParams) (f : String) (he : Bool)
      (h : String), cp.hostname = some h → h ≠ "" →
      ["--host", h] <:+: pgRestoreCommand p cp he f) := by
  refine ⟨?_, ?_, ?_, ?_, ?_, ?_, fun c r d => rfl, ?_, ?_⟩
  · intro c r d ht
    cases c with
    | none => simp [truthy] at ht
    | some s =>
      simp only [truthy, ne_eq, decide_eq_true_eq] at ht
      simp [restoreHostname, pyOrOpt, ht]
  · intro c r d v ht hr
    subst hr
    cases c with
    | none => simp [restoreHostname, pyOrOpt, dictGetOpt]
    | some s =>
      simp only [truthy, ne_eq, decide_eq_false_iff_not, not_not] at ht
      simp [restoreHostname, pyOrOpt, dictGetOpt, ht]
  · intro c r d ht hr
    subst hr
    cases c with
    | none => simp [restoreHostname, pyOrOpt, dictGetOpt]
    | some s =>
      simp only [truthy, ne_eq, decide_eq_false_iff_not, not_not] at ht
      simp [restoreHostname, pyOrOpt, dictGetOpt, ht]
  · intro c r d s hc hs
    subst hc
    simp [restorePort, pyOrStr, hs]
  · intro c r d v ht hr
    subst hr
    cases c with
    | none => simp [restorePort, pyOrStr, dictGet]
    | some s =>
      simp only [truthy, ne_eq, decide_eq_false_iff_not, not_not] at ht
      simp [restorePort, pyOrStr, dictGet, ht]
  · intro c r d ht hr
    subst hr
    cases c with
    | none => simp [restorePort, pyOrStr, dictGet]
    | some s =>
      simp only [truthy, ne_eq, decide_eq_false_iff_not, not_not] at ht
      simp [restorePort, pyOrStr, dictGet, ht]
  · intro m cp f he h hc hne
    have hflag : flagIfTruthy "--host"
        (restoreHostname cp.hostname m.restore_hostname m.hostname) =
        ["--host", h] := by
      rw [restoreHostname_cp hc hne]
      simp [flagIfTruthy, hne]
    simp only [mongoRestoreCommandBase]
    rw [hflag]
    exact infix_extend_right (infix_extend_right (infix_extend_right
      (infix_extend_right (infix_extend_right
        (infix_extend_left (List.infix_refl _) _) _) _) _) _) _
  · intro p cp f he h hc hne
    have hflag : flagIfTruthy "--host"
        (restoreHostname cp.hostname p.restore_hostname p.hostname) =
        ["--host", h] := by
      rw [restoreHostname_cp hc hne]
      simp [flagIfTruthy, hne]
    simp only [pgRestoreCommand]
    rw [hflag]
    exact infix_extend_right (infix_extend_right (infix_extend_right
      (infix_extend_right (infix_extend_right (infix_extend_right
        (infix_extend_left (List.infix_refl _) _) _) _) _) _) _) _

/-- Witness for C8: a connection-parameter hostname overriding a
different configured `restore_hostname`. -/
theorem restore_connection_precedence_witness :
    restoreHostname (some "cph") (some "rh") (some "oh") = some "cph" ∧
    ["--host", "cph"] <:+: mongoRestoreCommandBase true
      { name := "app", hostname := some "oh", restore_hostname := some "rh" }
      "f" { hostname := some "cph" } ∧
    ["--host", "cph"] <:+: pgRestoreCommand
      { name := "app", hostname := some "oh", restore_hostname := some "rh" }
      { hostname := some "cph" } true "f" :=
  ⟨restore_connection_precedence.1 (some "cph") (some "rh") (some "oh")
      (by decide),
   restore_connection_precedence.2.2.2.2.2.2.2.1
      { name := "app", hostname := some "oh", restore_hostname := some "rh" }
      { hostname := some "cph" } "f" true "cph" rfl (by decide),
   restore_connection_precedence.2.2.2.2.2.2.2.2
      { name := "app", hostname := some "oh", restore_hostname := some "rh" }
      { hostname := some "cph" } "f" true "cph" rfl (by decide)⟩

theorem pgDumpCommand_mem_cases {t : String} {database : PgDatabase}
    {dbName fname : String}
    (hm : t ∈ pgDumpCommand database dbName fname) :
    t = pyOrStr database.pg_dump_command
      (if dbName = "all" then "pg_dumpall" else "pg_dump") ∨
    t ∈ ["--no-password", "--clean", "--if-exists", "--host", "--port",
      "--username", "--no-owner", "--format"] ∨
    (∃ v, database.hostname = some v ∧ t = v) ∨
    (∃ v, database.port = some v ∧ t = v) ∨
    (∃ v, database.username = some v ∧ t = v) ∨
    (∃ v, pgDumpFormat database dbName = some v ∧ t = v) ∨
    (pgDumpFormat database dbName = some "directory" ∧ (t = "--file" ∨ t = fname)) ∨
    (∃ o, database.options = some o ∧ t ∈ splitOnSpace o) ∨
    (dbName ≠ "all" ∧ t = dbName) ∨
    (pgDumpFormat database dbName ≠ some "directory" ∧ (t = ">" ∨ t = fname)) := by
  simp only [pgDumpCommand, List.mem_append, List.mem_cons, List.mem_singleton,
    List.not_mem_nil, or_false, false_or, or_assoc] at hm
  rcases hm with h | h | h | h | h | h | h | h | h | h | h | h | h
  · exact Or.inl h
  · exact Or.inr (Or.inl (by simp [h]))
  · exact Or.inr (Or.inl (by simp [h]))
  · exact Or.inr (Or.inl (by simp [h]))
  · rcases mem_optPair h with h | h
    · exact Or.inr (Or.inl (by simp [h]))
    · exact Or.inr (Or.inr (Or.inl ⟨t, h, rfl⟩))
  · rcases mem_optPair h with h | h
    · exact Or.inr (Or.inl (by simp [h]))
    · exact Or.inr (Or.inr (Or.inr (Or.inl ⟨t, h, rfl⟩)))
  · rcases mem_optPair h with h | h
    · exact Or.inr (Or.inl (by simp [h]))
    · exact Or.inr (Or.inr (Or.inr (Or.inr (Or.inl ⟨t, h, rfl⟩))))
  · split at h
    · simp only [List.mem_singleton] at h
      exact Or.inr (Or.inl (by simp [h]))
    · simp at h
  · rcases mem_flagIfTruthy h with h | h
    · exact Or.inr (Or.inl (by simp [h]))
    · exact Or.inr (Or.inr (Or.inr (Or.inr (Or.inr (Or.inl ⟨t, h, rfl⟩)))))
  · split at h
    · rename_i hdir
      simp only [List.mem_cons, List.mem_singleton, List.not_mem_nil,
        or_false] at h
      exact Or.inr (Or.inr (Or.inr (Or.inr (Or.inr (Or.inr (Or.inl
        ⟨hdir, by tauto⟩))))))
    · simp at h
  · obtain ⟨o, ho, hto⟩ := mem_optSplit h
    exact Or.inr (Or.inr (Or.inr (Or.inr (Or.inr (Or.inr (Or.inr (Or.inl
      ⟨o, ho, hto⟩)))))))
  · split at h
    · simp at h
    · rename_i hnall
      simp only [List.mem_singleton] at h
      exact Or.inr (Or.inr (Or.inr (Or.inr (Or.inr (Or.inr (Or.inr (Or.inr
        (Or.inl ⟨hnall, h⟩))))))))
  · split at h
    · rename_i hdir
      simp only [List.mem_cons, List.mem_singleton, List.not_mem_nil,
        or_false] at h
      exact Or.inr (Or.inr (Or.inr (Or.inr (Or.inr (Or.inr (Or.inr (Or.inr
        (Or.inr ⟨hdir, by tauto⟩))))))))
    · simp at h

theorem pgDumpCommand_not_special (database : PgDatabase)
    (dbName fname : String)
    (hclean : pgDumpCommandClean database dbName fname = true) :
    (pgDumpFormat database dbName ≠ some "directory" →
      "--file" ∉ pgDumpCommand database dbName fname) ∧
    (pgDumpFormat database dbName = some "directory" →
      ">" ∉ pgDumpCommand database dbName fname) ∧
    (dbName = "all" → "all" ∉ pgDumpCommand database dbName fname) := by
  simp only [pgDumpCommandClean, Bool.and_eq_true, decide_eq_true_eq] at hclean
  obtain ⟨⟨⟨⟨⟨⟨⟨hname, hfname⟩, hcmd⟩, hhost⟩, hport⟩, huser⟩, hfmtc⟩, hopts⟩ :=
    hclean
  refine ⟨fun hdir hm => ?_, fun hdir hm => ?_, fun hall hm => ?_⟩
  · rcases pgDumpCommand_mem_cases hm with h | h | ⟨v, hv, h⟩ | ⟨v, hv, h⟩ |
      ⟨v, hv, h⟩ | ⟨v, hv, h⟩ | ⟨h1, h⟩ | ⟨o, ho, hto⟩ | ⟨h1, h⟩ | ⟨h1, h⟩
    · exact hcmd (by simp [← h])
    · simp at h
    · exact noneOrAvoids_spec hhost hv (by simp [← h])
    · exact noneOrAvoids_spec hport hv (by simp [← h])
    · exact noneOrAvoids_spec huser hv (by simp [← h])
    · exact noneOrAvoids_spec hfmtc hv (by simp [← h])
    · exact hdir h1
    · exact splitAvoids_spec hopts ho _ hto (by simp)
    · exact hname (by simp [← h])
    · rcases h with h | h
      · simp at h
      · exact hfname (by simp [← h])
  · rcases pgDumpCommand_mem_cases hm with h | h | ⟨v, hv, h⟩ | ⟨v, hv, h⟩ |
      ⟨v, hv, h⟩ | ⟨v, hv, h⟩ | ⟨h1, h⟩ | ⟨o, ho, hto⟩ | ⟨h1, h⟩ | ⟨h1, h⟩
    · exact hcmd (by simp [← h])
    · simp at h
    · exact noneOrAvoids_spec hhost hv (by simp [← h])
    · exact noneOrAvoids_spec hport hv (by simp [← h])
    · exact noneOrAvoids_spec huser hv (by simp [← h])
    · exact noneOrAvoids_spec hfmtc hv (by simp [← h])
    · rcases h with h | h
      · simp at h
      · exact hfname (by simp [← h])
    · exact splitAvoids_spec hopts ho _ hto (by simp)
    · exact hname (by simp [← h])
    · exact h1 hdir
  · rcases pgDumpCommand_mem_cases hm with h | h | ⟨v, hv, h⟩ | ⟨v, hv, h⟩ |
      ⟨v, hv, h⟩ | ⟨v, hv, h⟩ | ⟨h1, h⟩ | ⟨o, ho, hto⟩ | ⟨h1, h⟩ | ⟨h1, h⟩
    · simp only [hall, if_true, ite_true] at h
      exact hcmd (by simp [← h, hall])
    · simp at h
    · exact noneOrAvoids_spec hhost hv (by simp [← h, hall])
    · exact noneOrAvoids_spec hport hv (by simp [← h, hall])
    · exact noneOrAvoids_spec huser hv (by simp [← h, hall])
    · exact noneOrAvoids_spec hfmtc hv (by simp [← h, hall])
    · rcases h with h | h
      · simp at h
      · exact hfname (by simp [← h, hall])
    · exact splitAvoids_spec hopts ho _ hto (by simp [hall])
    · exact h1 hall
    · rcases h with h | h
      · simp at h
      · exact hfname (by simp [← h, hall])

/-- C6: the PostgreSQL dump command for one resolved database name: the
dump format defaults to `custom` for a named database and is unset for
`"all"`; the `--file <path>` pair appears exactly for the `directory`
format; the trailing shell redirection `> <dump_filename>` appears
exactly for the non-`directory` formats; and the database name token is
appended exactly when the name is not `"all"`. -/
theorem pg_dump_command_shape (database : PgDatabase)
    (dbName fname : String)
    (hclean : pgDumpCommandClean database dbName fname = true) :
    (database.format = none → pgDumpFormat database dbName =
      (if dbName = "all" then none else some "custom")) ∧
    ("--file" ∈ pgDumpCommand database dbName fname ↔
      pgDumpFormat database dbName = some "directory") ∧
    ([">", fname] <:+ pgDumpCommand database dbName fname ↔
      pgDumpFormat database dbName ≠ some "directory") ∧
    (dbName ∈ pgDumpCommand database dbName fname ↔ dbName ≠ "all") := by
  obtain ⟨hfile, hredir, hall⟩ := pgDumpCommand_not_special database dbName
    fname hclean
  refine ⟨fun h => ?_, ⟨fun hm => ?_, fun hdir => ?_⟩,
    ⟨fun hs => ?_, fun hdir => ?_⟩, ⟨fun hm => ?_, fun hne => ?_⟩⟩
  · simp [pgDumpFormat, dictGetOpt, h]
  · by_contra hdir
    exact hfile hdir hm
  · simp [pgDumpCommand, hdir]
  · intro hdir
    exact hredir hdir (hs.sublist.subset (by simp))
  · simp only [pgDumpCommand, hdir, if_neg, ite_false]
    simp only [ne_eq, hdir, not_false_iff, if_true, ite_true]
    exact List.suffix_append _ _
  · intro hne
    subst hne
    exact hall rfl hm
  · simp [pgDumpCommand, hne]

/-- Witness for C6 at a concrete configuration. -/
theorem pg_dump_command_shape_witness :
    pgDumpFormat { name := "foo" } "foo" = some "custom" ∧
    ("--file" ∈ pgDumpCommand { name := "foo" } "foo" "/dumps/foo" ↔
      pgDumpFormat { name := "foo" } "foo" = some "directory") ∧
    ([">", "/dumps/foo"] <:+ pgDumpCommand { name := "foo" } "foo" "/dumps/foo" ↔
      pgDumpFormat { name := "foo" } "foo" ≠ some "directory") ∧
    ("foo" ∈ pgDumpCommand { name := "foo" } "foo" "/dumps/foo" ↔
      ("foo" : String) ≠ "all") :=
  ⟨(pg_dump_command_shape { name := "foo" } "foo" "/dumps/foo" (by decide)).1 rfl,
   (pg_dump_command_shape { name := "foo" } "foo" "/dumps/foo" (by decide)).2.1,
   (pg_dump_command_shape { name := "foo" } "foo" "/dumps/foo" (by decide)).2.2.1,
   (pg_dump_command_shape { name := "foo" } "foo" "/dumps/foo" (by decide)).2.2.2⟩

end Borgmatic
